import Mathlib

/-!
Verification of the single-flight job-execution coordinator embedded in
`samples/jobs.py` of the aws-iot-device-sdk-python-v2 samples repository.

The sample's coordination state (`LockedData`) is a record of four Boolean
flags guarded by one lock; every handler acquires the lock only for flag
reads/writes and performs the transport calls outside it.  Since every
critical section is a straight-line flag update, each Python handler is
embedded as a pure function on a state record.  The record also carries
instrumentation counters for the externally observable actions (invocations
of `try_start_next_job`, published start requests, spawned worker threads,
live worker slots, disconnect calls, and `is_sample_done.set()` signals) so
that counting properties of the spec can be stated.  `pending_starts` and
`active_slots` are environment bookkeeping used to say which events the
transport can deliver: an accepted/rejected start response answers exactly
one published start request, and a work-completion (update accepted) comes
from exactly one running worker thread.
-/

namespace Jobs

/-- One entry of a `GetPendingJobExecutions` response
(`job.job_id`, `job.last_updated_at` in the Python). -/
structure JobSummary where
  job_id : String
  last_updated_at : String
deriving Repr, DecidableEq

/-- The `execution` payload carried by a `NextJobExecutionChanged` event or a
`StartNextJobExecution` response. -/
structure JobExecutionData where
  job_id : String
  job_document : String
deriving Repr, DecidableEq

/-- `GetPendingJobExecutionsResponse`: the two job lists the accepted
handler reads. -/
structure GetPendingJobExecutionsResponse where
  in_progress_jobs : List JobSummary
  queued_jobs : List JobSummary
deriving Repr, DecidableEq

/-- The sample's shared state: the four flags of the Python `LockedData`
class plus `available_jobs`, together with instrumentation counters for the
observable actions of the sample. -/
structure SampleState where
  /-- `locked_data.disconnect_called` -/
  disconnect_called : Bool
  /-- `locked_data.is_working_on_job` -/
  is_working_on_job : Bool
  /-- `locked_data.is_next_job_waiting` -/
  is_next_job_waiting : Bool
  /-- `locked_data.got_job_response` -/
  got_job_response : Bool
  /-- the global `available_jobs` list -/
  available_jobs : List JobSummary
  /-- number of invocations of `try_start_next_job` (entries into the
  function, before its guards run) -/
  try_start_calls : Nat
  /-- number of `publish_start_next_pending_job_execution` calls -/
  start_publishes : Nat
  /-- number of worker threads ever spawned by the start-accepted handler -/
  slots_spawned : Nat
  /-- number of currently live work execution slots: spawned and not yet
  finished (a slot finishes when its status update is resolved) -/
  active_slots : Nat
  /-- published start requests whose accepted/rejected response has not yet
  been delivered -/
  pending_starts : Nat
  /-- number of `mqtt_connection.disconnect()` invocations -/
  disconnects : Nat
  /-- number of `is_sample_done.set()` signals (the `on_disconnected`
  callback) -/
  done_signals : Nat
deriving Repr, DecidableEq

/-- Process start: all flags false, no jobs, no activity. -/
def init : SampleState :=
  { disconnect_called := false
    is_working_on_job := false
    is_next_job_waiting := false
    got_job_response := false
    available_jobs := []
    try_start_calls := 0
    start_publishes := 0
    slots_spawned := 0
    active_slots := 0
    pending_starts := 0
    disconnects := 0
    done_signals := 0 }

/-- `exit(msg_or_exception)`: under the lock, if `disconnect_called` is not
yet set, set it and invoke `mqtt_connection.disconnect()`; otherwise do
nothing. -/
def exit (s : SampleState) : SampleState :=
  if s.disconnect_called then s
  else { s with disconnect_called := true, disconnects := s.disconnects + 1 }

/-- `on_disconnected(disconnect_future)`: signals `is_sample_done.set()`. -/
def on_disconnected (s : SampleState) : SampleState :=
  { s with done_signals := s.done_signals + 1 }

/-- `try_start_next_job()`: count the invocation; under the lock, return if
`is_working_on_job` or `disconnect_called`; otherwise set
`is_working_on_job := true`, `is_next_job_waiting := false`, and (outside
the lock) publish the start-next-pending-job-execution request. -/
def try_start_next_job (s : SampleState) : SampleState :=
  let s := { s with try_start_calls := s.try_start_calls + 1 }
  if s.is_working_on_job then s
  else if s.disconnect_called then s
  else
    { s with
      is_working_on_job := true
      is_next_job_waiting := false
      start_publishes := s.start_publishes + 1
      pending_starts := s.pending_starts + 1 }

/-- `done_working_on_job()`: under the lock, set `is_working_on_job := false`
and capture `is_next_job_waiting` (which is NOT cleared there); outside the
lock, if the captured value was true, call `try_start_next_job()`. -/
def done_working_on_job (s : SampleState) : SampleState :=
  let s := { s with is_working_on_job := false }
  let try_again := s.is_next_job_waiting
  if try_again then try_start_next_job s else s

/-- `on_next_job_execution_changed(event)`: if `event.execution` is present,
under the lock set `is_next_job_waiting := true` when already working, else
mark start-now and call `try_start_next_job()` outside the lock; if the
execution is absent, only log and return. -/
def on_next_job_execution_changed (execution : Option JobExecutionData)
    (s : SampleState) : SampleState :=
  match execution with
  | some _ =>
      if s.is_working_on_job then { s with is_next_job_waiting := true }
      else try_start_next_job s
  | none => s

/-- `on_start_next_pending_job_execution_accepted(response)`: if
`response.execution` is present, spawn a worker thread for it; otherwise
call `done_working_on_job()`. -/
def on_start_next_pending_job_execution_accepted
    (execution : Option JobExecutionData) (s : SampleState) : SampleState :=
  match execution with
  | some _ =>
      { s with
        slots_spawned := s.slots_spawned + 1
        active_slots := s.active_slots + 1 }
  | none => done_working_on_job s

/-- `on_start_next_pending_job_execution_rejected(rejected)`: calls
`exit(...)` with the rejection message. -/
def on_start_next_pending_job_execution_rejected (s : SampleState) :
    SampleState :=
  Jobs.exit s

/-- `on_update_job_execution_accepted(response)`: calls
`done_working_on_job()`. -/
def on_update_job_execution_accepted (s : SampleState) : SampleState :=
  done_working_on_job s

/-- `on_update_job_execution_rejected(rejected)`: calls `exit(...)` with the
rejection message. -/
def on_update_job_execution_rejected (s : SampleState) : SampleState :=
  Jobs.exit s

/-- `on_get_pending_job_executions_accepted(response)`: under the lock, if
either job list is non-empty append the in-progress jobs and then the
queued jobs to `available_jobs`; in every case set
`got_job_response := true`. -/
def on_get_pending_job_executions_accepted
    (response : GetPendingJobExecutionsResponse) (s : SampleState) :
    SampleState :=
  let s :=
    if 0 < response.queued_jobs.length ∨ 0 < response.in_progress_jobs.length
    then
      { s with
        available_jobs :=
          s.available_jobs ++ response.in_progress_jobs ++
            response.queued_jobs }
    else s
  { s with got_job_response := true }

/-- `on_get_pending_job_executions_rejected(error)`: calls `exit(...)`. -/
def on_get_pending_job_executions_rejected (s : SampleState) : SampleState :=
  Jobs.exit s

/-- The events the environment (MQTT delivery contexts, worker threads,
error paths) can deliver to the coordinator. -/
inductive Ev where
  /-- a `NextJobExecutionChanged` event with the given execution payload -/
  | workAvailable (execution : Option JobExecutionData)
  /-- an accepted response to a published start request -/
  | startAccepted (execution : Option JobExecutionData)
  /-- a rejected response to a published start request -/
  | startRejected
  /-- a live work execution slot finishes and its status update is
  accepted -/
  | workComplete
  /-- a live work execution slot finishes and its status update is
  rejected -/
  | updateRejected
  /-- an accepted response to the get-pending-job-executions request -/
  | listAccepted (response : GetPendingJobExecutionsResponse)
  /-- a rejected response to the get-pending-job-executions request -/
  | listRejected
  /-- some component requests shutdown (calls `exit`) -/
  | requestShutdown
  /-- the disconnect future completes and runs `on_disconnected` -/
  | disconnected
deriving Repr, DecidableEq

/-- Effect of one delivered event: responses to start requests consume one
pending request, completions consume one live slot, then the corresponding
Python handler runs. -/
def step : Ev → SampleState → SampleState
  | .workAvailable e, s => on_next_job_execution_changed e s
  | .startAccepted e, s =>
      on_start_next_pending_job_execution_accepted e
        { s with pending_starts := s.pending_starts - 1 }
  | .startRejected, s =>
      on_start_next_pending_job_execution_rejected
        { s with pending_starts := s.pending_starts - 1 }
  | .workComplete, s =>
      on_update_job_execution_accepted
        { s with active_slots := s.active_slots - 1 }
  | .updateRejected, s =>
      on_update_job_execution_rejected
        { s with active_slots := s.active_slots - 1 }
  | .listAccepted r, s => on_get_pending_job_executions_accepted r s
  | .listRejected, s => on_get_pending_job_executions_rejected s
  | .requestShutdown, s => Jobs.exit s
  | .disconnected, s => on_disconnected s

/-- An event can be delivered in a state only when its trigger exists: a
start response answers an outstanding start request, a completion comes from
a live slot, and the disconnect callback fires once per disconnect call. -/
def valid : Ev → SampleState → Bool
  | .startAccepted _, s => decide (0 < s.pending_starts)
  | .startRejected, s => decide (0 < s.pending_starts)
  | .workComplete, s => decide (0 < s.active_slots)
  | .updateRejected, s => decide (0 < s.active_slots)
  | .disconnected, s => decide (s.done_signals < s.disconnects)
  | _, _ => true

/-- Run a list of events from a state. -/
def runFrom (s : SampleState) : List Ev → SampleState
  | [] => s
  | e :: tr => runFrom (step e s) tr

/-- Every event of the trace is valid at the point where it is applied. -/
def ValidFrom (s : SampleState) : List Ev → Prop
  | [] => True
  | e :: tr => valid e s = true ∧ ValidFrom (step e s) tr

instance instDecValidFrom :
    ∀ (s : SampleState) (tr : List Ev), Decidable (ValidFrom s tr)
  | _, [] => .isTrue trivial
  | s, e :: tr => @instDecidableAnd _ _ _ (instDecValidFrom (step e s) tr)

/-- Applying the shutdown entry point `exit` a number of times in a row. -/
def exitN : Nat → SampleState → SampleState
  | 0, s => s
  | n + 1, s => exitN n (Jobs.exit s)

/-- Delivering a burst of `NextJobExecutionChanged` events (each with a job
present), in order. -/
def deliverAll (js : List JobExecutionData) (s : SampleState) : SampleState :=
  js.foldl (fun s j => on_next_job_execution_changed (some j) s) s

/-- The CI wait loop of the `__main__` block: read `got_job_response`
(`obs k` is the value seen by the k-th read); leave the loop on a true
reading; a false reading consumes one retry, and after 50 retries
(51 false readings in total, since `got_job_response_tries > 50` aborts)
the loop gives up.  Returns the index of the successful reading, or `none`
on timeout. -/
def ciWaitFrom (obs : Nat → Bool) : Nat → Nat → Option Nat
  | 0, k => if obs k then some k else none
  | fuel + 1, k => if obs k then some k else ciWaitFrom obs fuel (k + 1)

/-- The CI wait as run by the sample: first reading is reading 0, and 50
retries remain after it. -/
def ciWait (obs : Nat → Bool) : Option Nat :=
  ciWaitFrom obs 50 0

/-- The CI block's process exit code: `-1` on wait timeout
(`sys.exit(-1)` after `exit("Got job response timeout exceeded")`),
else `0` when `available_jobs` is non-empty and `-1` when it is empty. -/
def ciExitCode (obs : Nat → Bool) (jobs : List JobSummary) : Int :=
  match ciWait obs with
  | none => -1
  | some _ => if 0 < jobs.length then 0 else -1

/-- Observation of `got_job_response` when the accepted response to the
pending-jobs request arrives just before reading `t` (or never arrives):
the flag is set from reading `t` on, since it never goes back to false. -/
def obsArrival : Option Nat → Nat → Bool
  | some t, k => decide (t ≤ k)
  | none, _ => false

/-- Coordinator invariant maintained by every validly delivered event:
outstanding start requests plus live work execution slots never exceed the
budget granted by `is_working_on_job`, the disconnect call count matches
the `disconnect_called` flag, and done signals never outrun disconnects. -/
def inv (s : SampleState) : Prop :=
  s.pending_starts + s.active_slots ≤
      (if s.is_working_on_job then 1 else 0) ∧
  s.disconnects = (if s.disconnect_called then 1 else 0) ∧
  s.done_signals ≤ s.disconnects

/-! ### Basic handler characterizations -/

/-- `exit` always leaves the state with `disconnect_called` set. -/
theorem exit_disconnect_called (s : SampleState) :
    (Jobs.exit s).disconnect_called = true := by
  unfold Jobs.exit
  split
  · assumption
  · rfl

/-- `exit` on a state that has already begun shutdown is the identity. -/
theorem exit_of_called (s : SampleState) (h : s.disconnect_called = true) :
    Jobs.exit s = s := by
  simp [Jobs.exit, h]

/-- `try_start_next_job` never changes `disconnect_called`. -/
theorem try_start_disconnect_called (s : SampleState) :
    (try_start_next_job s).disconnect_called = s.disconnect_called := by
  by_cases hw : s.is_working_on_job = true <;>
    by_cases hd : s.disconnect_called = true <;>
      simp [try_start_next_job, hw, hd]

/-- `done_working_on_job` never changes `disconnect_called`. -/
theorem done_working_disconnect_called (s : SampleState) :
    (done_working_on_job s).disconnect_called = s.disconnect_called := by
  by_cases hw : s.is_next_job_waiting = true <;>
    by_cases hd : s.disconnect_called = true <;>
      simp [done_working_on_job, try_start_next_job, hw, hd]

/-- C9: a `NextJobExecutionChanged` event whose `execution` field is absent
leaves the whole sample state unchanged: every flag keeps its value and no
start attempt, slot, or shutdown results — the handler only logs. -/
theorem next_job_changed_none_frame (s : SampleState) :
    on_next_job_execution_changed none s = s := rfl

/-- C5: a work-available event (execution present) defers by setting only
`is_next_job_waiting` when a job is being worked on, and otherwise is
exactly an invocation of `try_start_next_job`. -/
theorem on_work_available_postcondition (j : JobExecutionData)
    (s : SampleState) :
    (s.is_working_on_job = true →
        on_next_job_execution_changed (some j) s =
          { s with is_next_job_waiting := true }) ∧
    (s.is_working_on_job = false →
        on_next_job_execution_changed (some j) s = try_start_next_job s) := by
  constructor <;> intro h <;> simp [on_next_job_execution_changed, h]

/-- Witness for C5 at concrete states: a busy coordinator records the
deferred retry, an idle one starts next work. -/
theorem on_work_available_postcondition_witness :
    (on_next_job_execution_changed (some ⟨"job-1", "doc-1"⟩)
        { init with is_working_on_job := true } =
      { init with is_working_on_job := true, is_next_job_waiting := true }) ∧
    (on_next_job_execution_changed (some ⟨"job-1", "doc-1"⟩) init =
      try_start_next_job init) :=
  ⟨(on_work_available_postcondition ⟨"job-1", "doc-1"⟩
      { init with is_working_on_job := true }).1 rfl,
   (on_work_available_postcondition ⟨"job-1", "doc-1"⟩ init).2 rfl⟩

/-- C7: every rejected response — start, update, or pending-jobs list — is
handled by calling the single shutdown entry point `exit`, so after any
rejection handler runs, shutdown has been requested
(`disconnect_called = true`). -/
theorem rejection_triggers_shutdown (s : SampleState) :
    on_start_next_pending_job_execution_rejected s = Jobs.exit s ∧
    on_update_job_execution_rejected s = Jobs.exit s ∧
    on_get_pending_job_executions_rejected s = Jobs.exit s ∧
    (on_start_next_pending_job_execution_rejected s).disconnect_called =
      true ∧
    (on_update_job_execution_rejected s).disconnect_called = true ∧
    (on_get_pending_job_executions_rejected s).disconnect_called = true :=
  ⟨rfl, rfl, rfl, exit_disconnect_called s, exit_disconnect_called s,
    exit_disconnect_called s⟩

/-- C3 counterexample: `done_working_on_job` does NOT clear
`is_next_job_waiting` inside its critical section.  From the state where
shutdown has begun while a job was being worked on and a retry is pending,
the retry flag is still set after the handler returns (the deferred
`try_start_next_job` call hits the `disconnect_called` guard and never
clears it), contradicting the claim that the flag is cleared before the
lock is released. -/
theorem done_working_counterexample :
    (done_working_on_job
        { init with
            disconnect_called := true
            disconnects := 1
            is_working_on_job := true
            is_next_job_waiting := true }).is_next_job_waiting = true := by
  decide

/-- C3 (amended): `done_working_on_job` sets `is_working_on_job := false`,
captures `is_next_job_waiting` WITHOUT clearing it, and invokes
`try_start_next_job` exactly when the captured value was true; the flag is
cleared only by that nested call when it proceeds, so after the handler the
flag remains true exactly when a retry was pending but shutdown had begun,
and work restarts exactly when a retry was pending and shutdown had not
begun. -/
theorem done_working_on_job_postcondition (s : SampleState) :
    (done_working_on_job s).try_start_calls =
        s.try_start_calls + (if s.is_next_job_waiting then 1 else 0) ∧
    (done_working_on_job s).is_next_job_waiting =
        (s.is_next_job_waiting && s.disconnect_called) ∧
    (done_working_on_job s).is_working_on_job =
        (s.is_next_job_waiting && !s.disconnect_called) ∧
    (done_working_on_job s).disconnect_called = s.disconnect_called ∧
    (done_working_on_job s).active_slots = s.active_slots ∧
    (done_working_on_job s).slots_spawned = s.slots_spawned ∧
    (done_working_on_job s).start_publishes =
        s.start_publishes +
          (if s.is_next_job_waiting && !s.disconnect_called then 1
           else 0) := by
  by_cases hw : s.is_next_job_waiting = true <;>
    by_cases hd : s.disconnect_called = true <;>
      simp [done_working_on_job, try_start_next_job, hw, hd]

/-! ### The CI wait loop -/

/-- A successful CI wait returns an index within the polling window, and
the flag was observed true there. -/
theorem ciWaitFrom_some_bound (obs : Nat → Bool) :
    ∀ (fuel k j : Nat), ciWaitFrom obs fuel k = some j →
      k ≤ j ∧ j ≤ k + fuel ∧ obs j = true := by
  intro fuel
  induction fuel with
  | zero =>
      intro k j h
      by_cases hk : obs k = true
      · simp [ciWaitFrom, hk] at h
        subst h
        exact ⟨Nat.le_refl _, Nat.le_add_right _ _, hk⟩
      · simp [ciWaitFrom, hk] at h
  | succ f ih =>
      intro k j h
      by_cases hk : obs k = true
      · simp [ciWaitFrom, hk] at h
        subst h
        exact ⟨Nat.le_refl _, Nat.le_add_right _ _, hk⟩
      · simp [ciWaitFrom, hk] at h
        obtain ⟨h1, h2, h3⟩ := ih (k + 1) j h
        exact ⟨by omega, by omega, h3⟩

/-- CI wait against a monotone observation that turns true at reading `t`:
it succeeds exactly when `t` falls inside the window, returning the first
true reading. -/
theorem ciWaitFrom_arrival (t : Nat) :
    ∀ (fuel k : Nat),
      ciWaitFrom (obsArrival (some t)) fuel k =
        if t ≤ k + fuel then some (max t k) else none := by
  intro fuel
  induction fuel with
  | zero =>
      intro k
      by_cases h : t ≤ k
      · simp [ciWaitFrom, obsArrival, h, Nat.max_eq_right h]
      · simp [ciWaitFrom, obsArrival, h]
  | succ f ih =>
      intro k
      by_cases h : t ≤ k
      · have hk : t ≤ k + (f + 1) := Nat.le_trans h (Nat.le_add_right _ _)
        simp [ciWaitFrom, obsArrival, h, hk, Nat.max_eq_right h]
      · have h1 : max t (k + 1) = t := Nat.max_eq_left (by omega)
        have h2 : max t k = t := Nat.max_eq_left (by omega)
        have h3 : k + 1 + f = k + (f + 1) := by omega
        simp only [ciWaitFrom, obsArrival, h, decide_eq_true_eq, if_false,
          ih (k + 1), h1, h2, h3]

/-- CI wait on an observation that never turns true times out. -/
theorem ciWaitFrom_never :
    ∀ (fuel k : Nat), ciWaitFrom (obsArrival none) fuel k = none := by
  intro fuel
  induction fuel with
  | zero => intro k; simp [ciWaitFrom, obsArrival]
  | succ f ih => intro k; simp [ciWaitFrom, obsArrival, ih (k + 1)]

/-- C8: the CI wait performs at most 51 flag readings (indices 0 through
50) before declaring failure, so it always terminates; and the CI exit
code is 0 exactly when the pending-jobs response arrived within the
polling window and at least one job was listed, every other outcome
(timeout, or an empty job list) exiting with the nonzero code -1. -/
theorem ci_bounded_polling :
    (∀ (obs : Nat → Bool) (fuel k j : Nat),
        ciWaitFrom obs fuel k = some j →
          k ≤ j ∧ j ≤ k + fuel ∧ obs j = true) ∧
    (∀ obs : Nat → Bool,
        ciWait obs = none ∨
          ∃ j, j ≤ 50 ∧ ciWait obs = some j ∧ obs j = true) ∧
    (∀ (arrival : Option Nat) (jobs : List JobSummary),
        ciExitCode (obsArrival arrival) jobs = 0 ↔
          (∃ t, arrival = some t ∧ t ≤ 50) ∧ jobs ≠ []) ∧
    (∀ (obs : Nat → Bool) (jobs : List JobSummary),
        ciExitCode obs jobs = 0 ∨ ciExitCode obs jobs = -1) := by
  refine ⟨ciWaitFrom_some_bound, ?_, ?_, ?_⟩
  · intro obs
    cases h : ciWait obs with
    | none => exact Or.inl rfl
    | some j =>
        obtain ⟨h1, h2, h3⟩ := ciWaitFrom_some_bound obs 50 0 j h
        exact Or.inr ⟨j, by omega, rfl, h3⟩
  · intro arrival jobs
    cases arrival with
    | none =>
        simp [ciExitCode, ciWait, ciWaitFrom_never]
    | some t =>
        by_cases ht : t ≤ 50
        · have : ciWait (obsArrival (some t)) = some (max t 0) := by
            rw [ciWait, ciWaitFrom_arrival]
            simp [ht]
          cases jobs with
          | nil => simp [ciExitCode, this, ht]
          | cons a l => simp [ciExitCode, this, ht]
        · have : ciWait (obsArrival (some t)) = none := by
            rw [ciWait, ciWaitFrom_arrival]
            simp
            omega
          simp [ciExitCode, this]
          intro ht'
          exact absurd ht' ht
  · intro obs jobs
    unfold ciExitCode
    cases ciWait obs with
    | none => exact Or.inr rfl
    | some j =>
        by_cases hj : 0 < jobs.length
        · exact Or.inl (by simp [hj])
        · exact Or.inr (by simp [hj])

/-- Witness for C8: a response arriving at reading 2 is found at reading 2,
within the window, and with one job listed the exit code is 0. -/
theorem ci_bounded_polling_witness :
    (0 ≤ 2 ∧ 2 ≤ 0 + 50 ∧ obsArrival (some 2) 2 = true) ∧
    ciExitCode (obsArrival (some 2)) [⟨"job-1", "t0"⟩] = 0 :=
  ⟨ci_bounded_polling.1 (obsArrival (some 2)) 50 0 2 (by decide),
   (ci_bounded_polling.2.2.1 (some 2) [⟨"job-1", "t0"⟩]).mpr
     ⟨⟨2, rfl, by decide⟩, by decide⟩⟩

/-- C10: the accepted handler for the pending-jobs listing always sets
`got_job_response`, even for a response with zero queued and zero
in-progress jobs; `available_jobs` receives the in-progress jobs followed
by the queued jobs of each response, in response order; the CI wait
terminates successfully as soon as the flag is observed (arrival at any
reading `t ≤ 50`), and with `available_jobs` empty the CI exit code is
the nonzero -1. -/
theorem get_pending_accepted_postcondition
    (r : GetPendingJobExecutionsResponse) (s : SampleState) :
    (on_get_pending_job_executions_accepted r s).got_job_response = true ∧
    (on_get_pending_job_executions_accepted r s).available_jobs =
        s.available_jobs ++ r.in_progress_jobs ++ r.queued_jobs ∧
    (∀ t : Nat, t ≤ 50 → ciWait (obsArrival (some t)) = some t) ∧
    (∀ obs : Nat → Bool, ciExitCode obs [] = -1) := by
  refine ⟨?_, ?_, ?_, ?_⟩
  · unfold on_get_pending_job_executions_accepted
    split <;> rfl
  · unfold on_get_pending_job_executions_accepted
    split
    · rfl
    · rename_i hcond
      push_neg at hcond
      obtain ⟨hq, hp⟩ := hcond
      have hq0 : r.queued_jobs = [] := by
        cases hql : r.queued_jobs with
        | nil => rfl
        | cons a l => rw [hql] at hq; simp at hq
      have hp0 : r.in_progress_jobs = [] := by
        cases hpl : r.in_progress_jobs with
        | nil => rfl
        | cons a l => rw [hpl] at hp; simp at hp
      simp [hq0, hp0]
  · intro t ht
    rw [ciWait, ciWaitFrom_arrival]
    simp [ht]
  · intro obs
    unfold ciExitCode
    cases ciWait obs with
    | none => rfl
    | some j => simp

/-- Witness for C10: the flag arriving at reading 3 ends the wait there. -/
theorem get_pending_accepted_witness :
    ciWait (obsArrival (some 3)) = some 3 :=
  (get_pending_accepted_postcondition ⟨[], []⟩ init).2.2.1 3 (by decide)

/-! ### The coordinator invariant -/

/-- A positive start/slot budget forces `is_working_on_job`. -/
theorem working_of_budget (s : SampleState)
    (h1 : s.pending_starts + s.active_slots ≤
        (if s.is_working_on_job then 1 else 0))
    (hp : 0 < s.pending_starts + s.active_slots) :
    s.is_working_on_job = true := by
  cases hx : s.is_working_on_job
  · rw [hx] at h1
    simp at h1
    omega
  · rfl

/-- `try_start_next_job` preserves the coordinator invariant. -/
theorem inv_try_start (s : SampleState) (h : inv s) :
    inv (try_start_next_job s) := by
  obtain ⟨h1, h2, h3⟩ := h
  by_cases hw : s.is_working_on_job = true <;>
    by_cases hd : s.disconnect_called = true <;>
      simp [inv, try_start_next_job, hw, hd] at h1 h2 ⊢ <;>
        omega

/-- `done_working_on_job` preserves the coordinator invariant when the
start/slot budget has just been fully returned. -/
theorem inv_done_working (s : SampleState) (hp : s.pending_starts = 0)
    (ha : s.active_slots = 0)
    (hd2 : s.disconnects = (if s.disconnect_called then 1 else 0))
    (hd3 : s.done_signals ≤ s.disconnects) :
    inv (done_working_on_job s) := by
  have hbase : inv { s with is_working_on_job := false } := by
    refine ⟨?_, hd2, hd3⟩
    simp [hp, ha]
  by_cases hw : s.is_next_job_waiting = true
  · have he : done_working_on_job s =
        try_start_next_job { s with is_working_on_job := false } := by
      simp [done_working_on_job, hw]
    rw [he]
    exact inv_try_start _ hbase
  · have he : done_working_on_job s =
        { s with is_working_on_job := false } := by
      simp [done_working_on_job, hw]
    rw [he]
    exact hbase

/-- `exit` preserves the coordinator invariant. -/
theorem inv_exit (s : SampleState) (h : inv s) : inv (Jobs.exit s) := by
  obtain ⟨h1, h2, h3⟩ := h
  by_cases hd : s.disconnect_called = true
  · rw [exit_of_called s hd]
    exact ⟨h1, h2, h3⟩
  · have hd' : s.disconnect_called = false := by
      cases hx : s.disconnect_called
      · rfl
      · exact absurd hx hd
    have he : Jobs.exit s =
        { s with disconnect_called := true,
                 disconnects := s.disconnects + 1 } := by
      simp [Jobs.exit, hd']
    rw [hd'] at h2
    simp at h2
    rw [he]
    refine ⟨h1, ?_, ?_⟩
    · show s.disconnects + 1 = (if true then 1 else 0)
      simp [h2]
    · show s.done_signals ≤ s.disconnects + 1
      omega

/-- Every validly delivered event preserves the coordinator invariant. -/
theorem inv_step (e : Ev) (s : SampleState) (hv : valid e s = true)
    (h : inv s) : inv (step e s) := by
  obtain ⟨h1, h2, h3⟩ := h
  cases e with
  | workAvailable ex =>
      cases ex with
      | none => exact ⟨h1, h2, h3⟩
      | some j =>
          by_cases hw : s.is_working_on_job = true
          · have he : step (.workAvailable (some j)) s =
                { s with is_next_job_waiting := true } := by
              simp [step, on_next_job_execution_changed, hw]
            rw [he]
            exact ⟨h1, h2, h3⟩
          · have he : step (.workAvailable (some j)) s =
                try_start_next_job s := by
              simp [step, on_next_job_execution_changed, hw]
            rw [he]
            exact inv_try_start s ⟨h1, h2, h3⟩
  | startAccepted ex =>
      have hp : 0 < s.pending_starts := by simpa [valid] using hv
      have hw : s.is_working_on_job = true :=
        working_of_budget s h1 (by omega)
      rw [hw] at h1
      simp at h1
      cases ex with
      | some j =>
          refine ⟨?_, h2, h3⟩
          simp [step, on_start_next_pending_job_execution_accepted, hw]
          omega
      | none =>
          simp only [step, on_start_next_pending_job_execution_accepted]
          apply inv_done_working
          · show s.pending_starts - 1 = 0
            omega
          · show s.active_slots = 0
            omega
          · exact h2
          · exact h3
  | startRejected =>
      have hinv' : inv { s with pending_starts := s.pending_starts - 1 } := by
        refine ⟨?_, h2, h3⟩
        show s.pending_starts - 1 + s.active_slots ≤
            (if s.is_working_on_job then 1 else 0)
        exact Nat.le_trans (by omega) h1
      simp only [step, on_start_next_pending_job_execution_rejected]
      exact inv_exit _ hinv'
  | workComplete =>
      have hp : 0 < s.active_slots := by simpa [valid] using hv
      have hw : s.is_working_on_job = true :=
        working_of_budget s h1 (by omega)
      rw [hw] at h1
      simp at h1
      simp only [step, on_update_job_execution_accepted]
      apply inv_done_working
      · show s.pending_starts = 0
        omega
      · show s.active_slots - 1 = 0
        omega
      · exact h2
      · exact h3
  | updateRejected =>
      have hinv' : inv { s with active_slots := s.active_slots - 1 } := by
        refine ⟨?_, h2, h3⟩
        show s.pending_starts + (s.active_slots - 1) ≤
            (if s.is_working_on_job then 1 else 0)
        exact Nat.le_trans (by omega) h1
      simp only [step, on_update_job_execution_rejected]
      exact inv_exit _ hinv'
  | listAccepted r =>
      simp only [step, on_get_pending_job_executions_accepted]
      split
      · exact ⟨h1, h2, h3⟩
      · exact ⟨h1, h2, h3⟩
  | listRejected =>
      simp only [step, on_get_pending_job_executions_rejected]
      exact inv_exit _ ⟨h1, h2, h3⟩
  | requestShutdown =>
      simp only [step]
      exact inv_exit _ ⟨h1, h2, h3⟩
  | disconnected =>
      have hp : s.done_signals < s.disconnects := by simpa [valid] using hv
      refine ⟨h1, h2, ?_⟩
      show s.done_signals + 1 ≤ s.disconnects
      omega

/-- The coordinator invariant holds along every valid trace. -/
theorem inv_runFrom (tr : List Ev) :
    ∀ s : SampleState, inv s → ValidFrom s tr → inv (runFrom s tr) := by
  induction tr with
  | nil =>
      intro s h _
      exact h
  | cons e tr ih =>
      intro s h hv
      exact ih (step e s) (inv_step e s hv.1 h) hv.2

/-- `exit` applied repeatedly to a state that has already begun shutdown is
the identity. -/
theorem exitN_of_called (n : Nat) :
    ∀ s : SampleState, s.disconnect_called = true → exitN n s = s := by
  induction n with
  | zero =>
      intro s _
      rfl
  | succ m ih =>
      intro s h
      show exitN m (Jobs.exit s) = s
      rw [exit_of_called s h]
      exact ih s h

/-- A burst of work-available events delivered while a job is being worked
on only records the deferred retry: each of them sets
`is_next_job_waiting`, and nothing else changes. -/
theorem deliverAll_working :
    ∀ (js : List JobExecutionData) (s : SampleState),
      s.is_working_on_job = true →
        deliverAll js s =
          if js.isEmpty then s
          else { s with is_next_job_waiting := true } := by
  intro js
  induction js with
  | nil =>
      intro s _
      rfl
  | cons j rest ih =>
      intro s h
      have hstep : on_next_job_execution_changed (some j) s =
          { s with is_next_job_waiting := true } := by
        simp [on_next_job_execution_changed, h]
      show deliverAll rest (on_next_job_execution_changed (some j) s) = _
      rw [hstep, ih { s with is_next_job_waiting := true } h]
      cases hre : rest.isEmpty <;> simp [hre]

/-- The initial state satisfies the coordinator invariant. -/
theorem inv_init : inv init := ⟨Nat.le_refl 0, rfl, Nat.le_refl 0⟩

/-! ### The claims about the coordinator -/

/-- C1: along every valid sequence of coordinator events from the initial
state at most one work execution slot is live, and a live slot implies
`is_working_on_job`; moreover `try_start_next_job` is a no-op (besides
being counted as an invocation) whenever `is_working_on_job` or
`disconnect_called` is already set, and otherwise it sets
`is_working_on_job` and publishes exactly one start request. -/
theorem single_flight (tr : List Ev) (h : ValidFrom init tr) :
    (runFrom init tr).active_slots ≤ 1 ∧
    (1 ≤ (runFrom init tr).active_slots →
        (runFrom init tr).is_working_on_job = true) ∧
    (∀ s : SampleState,
        s.is_working_on_job = true ∨ s.disconnect_called = true →
          try_start_next_job s =
            { s with try_start_calls := s.try_start_calls + 1 }) ∧
    (∀ s : SampleState, s.is_working_on_job = false →
        s.disconnect_called = false →
          (try_start_next_job s).is_working_on_job = true ∧
          (try_start_next_job s).start_publishes =
            s.start_publishes + 1) := by
  obtain ⟨h1, h2, h3⟩ := inv_runFrom tr init inv_init h
  refine ⟨?_, ?_, ?_, ?_⟩
  · cases hb : (runFrom init tr).is_working_on_job <;>
      rw [hb] at h1 <;> simp at h1 <;> omega
  · intro ha
    cases hb : (runFrom init tr).is_working_on_job
    · rw [hb] at h1
      simp at h1
      omega
    · rfl
  · intro s hs
    rcases hs with hs | hs
    · simp [try_start_next_job, hs]
    · by_cases hw : s.is_working_on_job = true
      · simp [try_start_next_job, hw]
      · simp [try_start_next_job, hw, hs]
  · intro s hw hd
    simp [try_start_next_job, hw, hd]

/-- Witness for C1 on the trace of Scenario 2: one work-available event,
an accepted start with a job, its completion, then shutdown. -/
theorem single_flight_witness :
    (runFrom init
        [Ev.workAvailable (some ⟨"job-1", "doc-1"⟩),
         Ev.startAccepted (some ⟨"job-1", "doc-1"⟩),
         Ev.workComplete, Ev.requestShutdown,
         Ev.disconnected]).active_slots ≤ 1 :=
  (single_flight
      [Ev.workAvailable (some ⟨"job-1", "doc-1"⟩),
       Ev.startAccepted (some ⟨"job-1", "doc-1"⟩),
       Ev.workComplete, Ev.requestShutdown, Ev.disconnected]
      (by decide)).1

/-- C2: work-available events (job present) arriving while a job is being
worked on invoke no `try_start_next_job` themselves and set the deferred
flag; when the active work then completes, exactly one new
`try_start_next_job` invocation occurs, however many events arrived during
the busy window. -/
theorem no_drop_coalescing (js : List JobExecutionData) (s : SampleState)
    (hne : js ≠ []) (hw : s.is_working_on_job = true) :
    (deliverAll js s).try_start_calls = s.try_start_calls ∧
    (deliverAll js s).is_next_job_waiting = true ∧
    (deliverAll js s).is_working_on_job = true ∧
    (step Ev.workComplete (deliverAll js s)).try_start_calls =
        s.try_start_calls + 1 := by
  have hie : js.isEmpty = false := by
    cases js with
    | nil => exact absurd rfl hne
    | cons a l => rfl
  have hd := deliverAll_working js s hw
  rw [hie] at hd
  simp at hd
  rw [hd]
  refine ⟨rfl, rfl, hw, ?_⟩
  by_cases hdc : s.disconnect_called = true <;>
    simp [step, on_update_job_execution_accepted, done_working_on_job,
      try_start_next_job, hdc]

/-- Witness for C2: two events during one busy window produce exactly one
retry invocation on completion. -/
theorem no_drop_coalescing_witness :
    (deliverAll [⟨"job-1", "doc-1"⟩, ⟨"job-2", "doc-2"⟩]
        { init with is_working_on_job := true,
                    active_slots := 1 }).is_next_job_waiting = true ∧
    (step Ev.workComplete
        (deliverAll [⟨"job-1", "doc-1"⟩, ⟨"job-2", "doc-2"⟩]
          { init with is_working_on_job := true,
                      active_slots := 1 })).try_start_calls = 1 :=
  ⟨(no_drop_coalescing [⟨"job-1", "doc-1"⟩, ⟨"job-2", "doc-2"⟩]
      { init with is_working_on_job := true, active_slots := 1 }
      (by decide) rfl).2.1,
   (no_drop_coalescing [⟨"job-1", "doc-1"⟩, ⟨"job-2", "doc-2"⟩]
      { init with is_working_on_job := true, active_slots := 1 }
      (by decide) rfl).2.2.2⟩

/-- C4: for every N ≥ 1, calling the shutdown entry point N times from a
state where shutdown has not begun yields exactly one disconnect
invocation and sets `disconnect_called`, which no event ever resets; a
call after shutdown has begun is a silent no-op; from the initial state, N
calls produce exactly one disconnect and — once the disconnect future
completes — exactly one done signal; and along every valid trace
disconnect invocations and done signals never exceed one. -/
theorem idempotent_shutdown :
    (∀ (n : Nat) (s : SampleState), 1 ≤ n → s.disconnect_called = false →
        (exitN n s).disconnects = s.disconnects + 1 ∧
        (exitN n s).disconnect_called = true ∧
        (exitN n s).done_signals = s.done_signals) ∧
    (∀ s : SampleState, s.disconnect_called = true → Jobs.exit s = s) ∧
    (∀ (e : Ev) (s : SampleState), s.disconnect_called = true →
        (step e s).disconnect_called = true) ∧
    (∀ n : Nat, 1 ≤ n →
        (exitN n init).disconnects = 1 ∧
        (on_disconnected (exitN n init)).done_signals = 1) ∧
    (∀ tr : List Ev, ValidFrom init tr →
        (runFrom init tr).disconnects ≤ 1 ∧
        (runFrom init tr).done_signals ≤ 1) := by
  have main : ∀ (n : Nat) (s : SampleState), 1 ≤ n →
      s.disconnect_called = false →
        (exitN n s).disconnects = s.disconnects + 1 ∧
        (exitN n s).disconnect_called = true ∧
        (exitN n s).done_signals = s.done_signals := by
    intro n s hn hd
    cases n with
    | zero => exact absurd hn (by omega)
    | succ m =>
        have he : Jobs.exit s =
            { s with disconnect_called := true,
                     disconnects := s.disconnects + 1 } := by
          simp [Jobs.exit, hd]
        show (exitN m (Jobs.exit s)).disconnects = s.disconnects + 1 ∧
          (exitN m (Jobs.exit s)).disconnect_called = true ∧
          (exitN m (Jobs.exit s)).done_signals = s.done_signals
        rw [he, exitN_of_called m _ rfl]
        exact ⟨rfl, rfl, rfl⟩
  refine ⟨main, fun s h => exit_of_called s h, ?_, ?_, ?_⟩
  · intro e s h
    cases e with
    | workAvailable ex =>
        cases ex with
        | none => exact h
        | some j =>
            by_cases hw : s.is_working_on_job = true
            · have he : step (.workAvailable (some j)) s =
                  { s with is_next_job_waiting := true } := by
                simp [step, on_next_job_execution_changed, hw]
              rw [he]
              exact h
            · have he : step (.workAvailable (some j)) s =
                  try_start_next_job s := by
                simp [step, on_next_job_execution_changed, hw]
              rw [he, try_start_disconnect_called]
              exact h
    | startAccepted ex =>
        cases ex with
        | some j => exact h
        | none =>
            show (done_working_on_job
                { s with pending_starts := s.pending_starts - 1
                  }).disconnect_called = true
            rw [done_working_disconnect_called]
            exact h
    | startRejected => exact exit_disconnect_called _
    | workComplete =>
        show (done_working_on_job
            { s with active_slots := s.active_slots - 1
              }).disconnect_called = true
        rw [done_working_disconnect_called]
        exact h
    | updateRejected => exact exit_disconnect_called _
    | listAccepted r =>
        simp only [step, on_get_pending_job_executions_accepted]
        split
        · exact h
        · exact h
    | listRejected => exact exit_disconnect_called _
    | requestShutdown => exact exit_disconnect_called _
    | disconnected => exact h
  · intro n hn
    obtain ⟨ha, hb, hc⟩ := main n init hn rfl
    constructor
    · rw [ha]
      rfl
    · show (exitN n init).done_signals + 1 = 1
      rw [hc]
      rfl
  · intro tr hv
    obtain ⟨h1, h2, h3⟩ := inv_runFrom tr init inv_init hv
    constructor
    · cases hb : (runFrom init tr).disconnect_called <;>
        rw [hb] at h2 <;> simp at h2 <;> omega
    · cases hb : (runFrom init tr).disconnect_called <;>
        rw [hb] at h2 <;> simp at h2 <;> omega

/-- Witness for C4: three shutdown calls from the initial state make
exactly one disconnect invocation. -/
theorem idempotent_shutdown_witness :
    (exitN 3 init).disconnects = init.disconnects + 1 ∧
    (exitN 3 init).disconnect_called = true ∧
    (exitN 3 init).done_signals = init.done_signals :=
  idempotent_shutdown.1 3 init (by decide) rfl

/-- C6 counterexample: from the Starting state entered by
`try_start_next_job`, an accepted start response carrying no job does NOT
always settle the coordinator in Idle.  If a work-available event arrives
during Starting (`is_next_job_waiting` set while `is_working_on_job` is
true), the no-job response triggers a further `try_start_next_job`
(invocation count 2, not 1) and leaves the coordinator working again
(`is_working_on_job = true`), not Idle. -/
theorem start_accepted_no_job_counterexample :
    ((on_start_next_pending_job_execution_accepted none
        (on_next_job_execution_changed (some ⟨"job-1", "doc-1"⟩)
          (try_start_next_job init))).is_working_on_job = true) ∧
    ((on_start_next_pending_job_execution_accepted none
        (on_next_job_execution_changed (some ⟨"job-1", "doc-1"⟩)
          (try_start_next_job init))).try_start_calls = 2) := by
  decide

/-- C6 (amended): an accepted start response with no job never spawns a
work execution slot; when no work-available event arrived during Starting
(`is_next_job_waiting = false`, as immediately after `try_start_next_job`)
it settles the coordinator in Idle — `is_working_on_job := false` and
nothing else changes, in particular no further `try_start_next_job` — and
when an event did arrive it issues exactly one further
`try_start_next_job`. -/
theorem start_accepted_no_job_postcondition (s : SampleState) :
    (on_start_next_pending_job_execution_accepted none s).slots_spawned =
        s.slots_spawned ∧
    (on_start_next_pending_job_execution_accepted none s).active_slots =
        s.active_slots ∧
    (s.is_next_job_waiting = false →
        on_start_next_pending_job_execution_accepted none s =
          { s with is_working_on_job := false }) ∧
    (s.is_next_job_waiting = true →
        (on_start_next_pending_job_execution_accepted none
            s).try_start_calls = s.try_start_calls + 1) := by
  have hs : on_start_next_pending_job_execution_accepted none s =
      done_working_on_job s := rfl
  rw [hs]
  by_cases hw : s.is_next_job_waiting = true <;>
    by_cases hd : s.disconnect_called = true <;>
      simp [done_working_on_job, try_start_next_job, hw, hd]

/-- Witness for C6 (amended): right after the initial
`try_start_next_job`, an accepted no-job response settles the coordinator
in Idle. -/
theorem start_accepted_no_job_witness :
    on_start_next_pending_job_execution_accepted none
        (try_start_next_job init) =
      { (try_start_next_job init) with is_working_on_job := false } :=
  (start_accepted_no_job_postcondition (try_start_next_job init)).2.2.1 rfl

end Jobs
